import Mathlib

/-!
Verification development for the VayuAi-YCH air-quality decision pipeline.
The Python sources are shallowly embedded: numeric sensor values become
rationals, Python dictionaries become association lists, fallible external
calls become explicit `Except` outcomes, and sequential mutation becomes
let-chaining.  Every definition mirrors the corresponding function in the
repository (file and function named in its doc comment).
-/

/-- Modelled from the spec: the pollution-source label enum `SmokeEventType`
from `models/schemas.py` (the schema module itself is not part of the core
sources).  The spec fixes the labels as
cigarette, vehicle, cooking, chemical, clean, unknown. -/
inductive SmokeEventType
  | cigarette
  | vehicle
  | cooking
  | chemical
  | clean
  | unknown
  deriving DecidableEq, Repr

/-- Modelled from the spec: the `SensorReading` record (pm25, co2, co, voc),
as consumed by `ControlDecisionAgent._generate_mock_response`. -/
structure SensorReading where
  pm25 : ℚ
  co2 : ℚ
  co : ℚ
  voc : ℚ
  deriving DecidableEq, Repr

/-- Modelled from the spec: the `SmokePrediction` record fields used by the
control decision logic and the blockchain logger (`will_peak`, `confidence`,
`estimated_peak_value`); the reasoning text is elided. -/
structure SmokePrediction where
  will_peak : Bool
  confidence : ℚ
  estimated_peak_value : ℚ
  deriving DecidableEq, Repr

/-- Modelled from the spec: the `AirTypeClassification` record fields used by
the control decision logic (`air_type`, `confidence`). -/
structure AirTypeClassification where
  air_type : SmokeEventType
  confidence : ℚ
  deriving DecidableEq, Repr

/-- The `ControlDecision` record returned by the control decision agent.
`reasoning` is the semicolon-joined message string; the numeric
interpolations of the Python f-strings are elided from the messages. -/
structure ControlDecision where
  fan_on : Bool
  fan_intensity : ℤ
  reasoning : String
  override_reason : Option String
  deriving DecidableEq, Repr

/-- `allowed_levels` from `ControlDecisionAgent.parse_response`
(src/agents/control_decision_agent.py). -/
def allowed_levels : List ℤ := [0, 25, 50, 75, 100]

/-- The snapping step of `ControlDecisionAgent.parse_response`:
`min(allowed_levels, key=lambda x: abs(x - fan_intensity))`.  Python `min`
keeps the first element attaining the minimal key, so the fold replaces the
running best only on a strictly smaller key. -/
def snapIntensity (x : ℚ) : ℤ :=
  allowed_levels.tail.foldl
    (fun (best l : ℤ) => if |(l : ℚ) - x| < |(best : ℚ) - x| then l else best)
    allowed_levels.headI

/-- The fields of the parsed LLM JSON object that
`ControlDecisionAgent.parse_response` reads via `data.get`; a missing field
is `none`. -/
structure DecisionResponseData where
  fan_on : Option Bool
  fan_intensity : Option ℚ
  reasoning : Option String
  override_reason : Option String

/-- `ControlDecisionAgent.parse_response` (src/agents/control_decision_agent.py,
lines 80-100), after JSON decoding: defaults for missing fields, snapping of
`fan_intensity` to the nearest allowed level. -/
def parseControlResponse (data : DecisionResponseData) : ControlDecision :=
  let fan_intensity := data.fan_intensity.getD 0
  { fan_on := data.fan_on.getD false
    fan_intensity := snapIntensity fan_intensity
    reasoning := data.reasoning.getD "No reasoning provided"
    override_reason := data.override_reason }

/-- The severity ratio of `ControlDecisionAgent._generate_mock_response`:
`max(pm25 / 150, co / 100, voc / 500)`. -/
def severityRatioOf (pm25 co voc : ℚ) : ℚ :=
  max (max (pm25 / 150) (co / 100)) (voc / 500)

/-- The air-type adjustment chain of
`ControlDecisionAgent._generate_mock_response` (the `if air_type ==`
cascade): chemical fixes 100, cigarette and vehicle give 75 rising to 100 at
severity 0.8, cooking gives 50 rising to 75 at severity 0.6, anything else
maps severity through the 0.8 / 0.6 / 0.4 ladder. -/
def comfortBase (air_type : SmokeEventType) (severity : ℚ) : ℤ :=
  if air_type = SmokeEventType.chemical then 100
  else if air_type = SmokeEventType.cigarette ∨ air_type = SmokeEventType.vehicle then
    if severity < 4/5 then 75 else 100
  else if air_type = SmokeEventType.cooking then
    if severity < 3/5 then 50 else 75
  else
    if severity > 4/5 then 100
    else if severity > 3/5 then 75
    else if severity > 2/5 then 50
    else 25

/-- The peak boost of `ControlDecisionAgent._generate_mock_response`: if a
peak is predicted with confidence above 0.6 and the intensity is below 100,
add 25 capped at 100. -/
def peakBoost (prediction : SmokePrediction) (fan_intensity : ℤ) : ℤ :=
  if prediction.will_peak = true ∧ prediction.confidence > 3/5 then
    if fan_intensity < 100 then min 100 (fan_intensity + 25) else fan_intensity
  else fan_intensity

/-- The reasoning message added by the air-type cascade (numeric
interpolations elided). -/
def comfortMessage (air_type : SmokeEventType) : List String :=
  if air_type = SmokeEventType.chemical then ["Chemical fumes detected - max ventilation"]
  else if air_type = SmokeEventType.cigarette then ["Cigarette smoke - high ventilation"]
  else if air_type = SmokeEventType.vehicle then ["Vehicle smoke - high ventilation"]
  else if air_type = SmokeEventType.cooking then ["Cooking smoke - moderate ventilation"]
  else []

/-- The reasoning message added by the peak boost when it actually raises the
intensity. -/
def boostMessage (prediction : SmokePrediction) (fan_intensity : ℤ) : List String :=
  if prediction.will_peak = true ∧ prediction.confidence > 3/5 then
    if fan_intensity < 100 then ["Boosted for predicted peak"] else []
  else []

/-- `ControlDecisionAgent._generate_mock_response`
(src/agents/control_decision_agent.py, lines 102-174): threshold checks set
`fan_on`, then severity, air-type adjustment and peak boost fix the
intensity; `override_reason` is always `None`. -/
def generateMockResponse (current : SensorReading) (prediction : SmokePrediction)
    (classification : AirTypeClassification) : ControlDecision :=
  let pm25 := current.pm25
  let co := current.co
  let voc := current.voc
  let fan_on : Bool := pm25 > 35 || co > 50 || voc > 200
  let parts : List String :=
    (if pm25 > 35 then ["PM2.5 elevated"] else []) ++
    (if co > 50 then ["CO high"] else []) ++
    (if voc > 200 then ["VOC elevated"] else [])
  if fan_on then
    let severity := severityRatioOf pm25 co voc
    let base := comfortBase classification.air_type severity
    let fan_intensity := peakBoost prediction base
    let parts := parts ++ comfortMessage classification.air_type ++
      boostMessage prediction base
    { fan_on := fan_on
      fan_intensity := fan_intensity
      reasoning := String.intercalate "; " parts
      override_reason := none }
  else
    { fan_on := fan_on
      fan_intensity := 0
      reasoning := String.intercalate "; " (parts ++ ["Air quality good - fan off"])
      override_reason := none }

/-- Python `dict.get(key, default)` on an association list of numeric fields. -/
def dictGet (fields : List (String × ℚ)) (key : String) (default : ℚ) : ℚ :=
  match fields with
  | [] => default
  | (k, v) :: rest => if k = key then v else dictGet rest key default

/-- `np.mean` of a window column. -/
def listMean (xs : List ℚ) : ℚ := xs.sum / xs.length

/-- `np.max` of a window column (only applied to nonempty windows in the
source; 0 stands in for the empty-input error case). -/
def listMax (xs : List ℚ) : ℚ :=
  match xs with
  | [] => 0
  | h :: t => t.foldl max h

/-- `x[-1]`, the last value of a window column (only applied to nonempty
windows in the source). -/
def listLast (xs : List ℚ) : ℚ := xs.getLastD 0

/-- `np.polyfit(range(len(x)), x, 1)[0]`: the least-squares linear-trend slope
over index positions 0..len-1, written in closed form; the source guards with
`len(x) > 1` and uses slope 0 otherwise. -/
def lsSlope (xs : List ℚ) : ℚ :=
  if xs.length ≤ 1 then 0
  else
    ((xs.length : ℚ) * ∑ i ∈ Finset.range xs.length, (i : ℚ) * xs.getD i 0
        - (∑ i ∈ Finset.range xs.length, (i : ℚ))
          * ∑ i ∈ Finset.range xs.length, xs.getD i 0)
      / ((xs.length : ℚ) * ∑ i ∈ Finset.range xs.length, (i : ℚ) ^ 2
        - (∑ i ∈ Finset.range xs.length, (i : ℚ)) ^ 2)

/-- The intercept of the same least-squares line (computed by `np.polyfit`
alongside the slope; the source discards it, it is needed here to state the
least-squares optimality of the slope). -/
def lsIntercept (xs : List ℚ) : ℚ :=
  if xs.length ≤ 1 then 0
  else ((∑ i ∈ Finset.range xs.length, xs.getD i 0)
      - lsSlope xs * ∑ i ∈ Finset.range xs.length, (i : ℚ)) / (xs.length : ℚ)

/-- The delta feature `x[-1] - x[-3]`, 0 when the window is shorter than 3. -/
def delta3 (xs : List ℚ) : ℚ :=
  if 3 ≤ xs.length then listLast xs - xs.getD (xs.length - 3) 0 else 0

/-- The five per-channel statistics appended by the feature loop: mean, max,
last value, trend slope, 3-step delta. -/
def channelFeatures (xs : List ℚ) : List ℚ :=
  [listMean xs, listMax xs, listLast xs, lsSlope xs, delta3 xs]

/-- The fixed channel iteration order shared by both extractors. -/
def trackedChannels : List String :=
  ["mq2_raw", "pm25", "co", "voc", "temperature", "humidity"]

namespace SmokeModelService

/-- `SmokeModelService.window_size` (src/services/smoke_model_service.py):
must match the training WINDOW. -/
def window_size : ℕ := 10

/-- `SmokeModelService.extract_features`
(src/services/smoke_model_service.py, lines 25-59): for each tracked channel,
read the column with `r.get(key, 0)` and append the five statistics. -/
def extract_features (window_data : List (List (String × ℚ))) : List ℚ :=
  trackedChannels.flatMap fun col =>
    channelFeatures (window_data.map fun r => dictGet r col 0)

end SmokeModelService

namespace SmokeModel

/-- The per-window slice of the training DataFrame: one column per tracked
channel (src/smoke_model.py). -/
structure WindowFrame where
  mq2_raw : List ℚ
  pm25 : List ℚ
  co : List ℚ
  voc : List ℚ
  temperature : List ℚ
  humidity : List ℚ

/-- `extract_features` of the training pipeline (src/smoke_model.py, lines
85-114): identical loop over the same channel order, reading
`window_df[col].values`. -/
def extract_features (df : WindowFrame) : List ℚ :=
  [df.mq2_raw, df.pm25, df.co, df.voc, df.temperature, df.humidity].flatMap channelFeatures

end SmokeModel

/-- A reading with all six tracked channels present, used to compare the two
extractors on the same window. -/
structure ChannelReading where
  mq2_raw : ℚ
  pm25 : ℚ
  co : ℚ
  voc : ℚ
  temperature : ℚ
  humidity : ℚ

/-- The dict form of a complete reading, as the service extractor consumes it. -/
def ChannelReading.toPairs (r : ChannelReading) : List (String × ℚ) :=
  [("mq2_raw", r.mq2_raw), ("pm25", r.pm25), ("co", r.co), ("voc", r.voc),
    ("temperature", r.temperature), ("humidity", r.humidity)]

/-- The column form of a window of complete readings, as the training
extractor consumes it. -/
def toFrame (rs : List ChannelReading) : SmokeModel.WindowFrame where
  mq2_raw := rs.map ChannelReading.mq2_raw
  pm25 := rs.map ChannelReading.pm25
  co := rs.map ChannelReading.co
  voc := rs.map ChannelReading.voc
  temperature := rs.map ChannelReading.temperature
  humidity := rs.map ChannelReading.humidity

/-- The sum of squared residuals of the line with slope a and intercept b
against a window column, over index positions 0..len-1. -/
def SSE (xs : List ℚ) (a b : ℚ) : ℚ :=
  ∑ i ∈ Finset.range xs.length, (xs.getD i 0 - (a * i + b)) ^ 2

/-- A reading as accepted by `SmokeModelService.predict`: either a Python dict
of numeric fields or a SensorReading-like object; per the spec the
temperature and humidity channels of a reading are optional, so the getattr
defaults 25.0 and 50.0 of the source apply when they are absent. -/
inductive PyReading
  | dict (fields : List (String × ℚ))
  | obj (pm25 co2 co voc : ℚ) (temperature humidity : Option ℚ)

/-- The window normalization inside `SmokeModelService.predict`: a dict passes
through unchanged, an object is mapped to the model dict layout with its co
attribute standing in for mq2_raw. -/
def PyReading.toDict : PyReading → List (String × ℚ)
  | .dict fields => fields
  | .obj pm25 _co2 co voc temperature humidity =>
      [("mq2_raw", co), ("pm25", pm25), ("co", co), ("voc", voc),
        ("temperature", temperature.getD 25), ("humidity", humidity.getD 50)]

namespace SmokeModelService

/-- `SmokeModelService.predict` (src/services/smoke_model_service.py, lines
61-92), with the frozen regression artifact abstracted as `model`.  With
fewer than window_size readings it returns `readings[-1].get('mq2', 0)` for a
dict (0 for an empty list) and `getattr(readings[-1], 'co', 0)` for an
object; otherwise it extracts features from the trailing window and applies
the model. -/
def predict (model : List ℚ → ℚ) (readings : List PyReading) : ℚ :=
  if readings.length < window_size then
    match readings.getLast? with
    | none => 0
    | some (.dict fields) => dictGet fields "mq2" 0
    | some (.obj _ _ co _ _ _) => co
  else
    model (extract_features
      ((readings.drop (readings.length - window_size)).map PyReading.toDict))

end SmokeModelService

/-- Modelled from the spec: the primary channel value of a reading is its
mq2_raw channel, the first tracked feature channel; for an object the window
normalization maps the co attribute there. -/
def primaryChannelValue : PyReading → ℚ
  | .dict fields => dictGet fields "mq2_raw" 0
  | .obj _ _ co _ _ _ => co

/-- Python enum coercion `SmokeEventType(s)` over the label values fixed by
the spec; a string matching no value raises ValueError, modelled as none. -/
def smokeEventTypeOfValue (s : String) : Option SmokeEventType :=
  if s = "cigarette" then some SmokeEventType.cigarette
  else if s = "vehicle" then some SmokeEventType.vehicle
  else if s = "cooking" then some SmokeEventType.cooking
  else if s = "chemical" then some SmokeEventType.chemical
  else if s = "clean" then some SmokeEventType.clean
  else if s = "unknown" then some SmokeEventType.unknown
  else none

/-- The fields of the parsed LLM JSON object read by
`AirTypeClassificationAgent.parse_response`; a missing field is none. -/
structure ClassificationResponseData where
  air_type : Option String
  confidence : Option ℚ
  reasoning : Option String

/-- `AirTypeClassificationAgent.parse_response`
(src/agents/air_classification_agent.py, lines 63-79), after JSON decoding:
the air_type field defaults to "unknown", is coerced to the enum, and falls
back to unknown when the coercion raises ValueError. -/
def parseClassificationResponse (data : ClassificationResponseData) : AirTypeClassification :=
  let air_type_str := data.air_type.getD "unknown"
  let air_type :=
    match smokeEventTypeOfValue air_type_str with
    | some t => t
    | none => SmokeEventType.unknown
  { air_type := air_type
    confidence := data.confidence.getD 0 }

/-- The decision payload assembled by `BlockchainLogger.log_decision`
(src/blockchain/logger.py, lines 123-132): decision fields plus the optional
prediction fields. -/
structure BlockchainLogData where
  fan_on : Bool
  fan_intensity : ℤ
  reasoning : String
  override_reason : Option String
  predicted_smoke_peak : Option ℚ
  prediction_confidence : Option ℚ

/-- A `BlockchainLog` entry (models/schemas.py is not under the core sources;
the fields follow its uses in src/blockchain/logger.py): the hash is none
until one of the logging paths fills it. -/
structure BlockchainLog where
  event_type : String
  device_id : String
  data : BlockchainLogData
  hash : Option String

/-- The `BlockchainLogger` state relevant to `log_decision`: the enabled flag,
whether a contract and an account were configured, and the in-memory ledger. -/
structure LoggerState where
  enabled : Bool
  hasContract : Bool
  hasAccount : Bool
  ledger : List BlockchainLog

/-- The `log_data` dict built by `BlockchainLogger.log_decision`. -/
def log_data_of (decision : ControlDecision) (prediction : Option SmokePrediction) :
    BlockchainLogData where
  fan_on := decision.fan_on
  fan_intensity := decision.fan_intensity
  reasoning := decision.reasoning
  override_reason := decision.override_reason
  predicted_smoke_peak := prediction.map SmokePrediction.estimated_peak_value
  prediction_confidence := prediction.map SmokePrediction.confidence

/-- `BlockchainLogger.log_decision` (src/blockchain/logger.py, lines 106-158).
The awaited blockchain write is abstracted as an `Except` outcome and the
local content hash `_generate_mock_hash` (lines 248-268, sha256 of the
serialized entry) as a function of the entry.  On a successful write the
transaction hash is kept; on a raised exception or with the blockchain
disabled or unconfigured, the locally computed hash is substituted; in every
case the entry is appended to the in-memory ledger and returned. -/
def log_decision (mockHash : BlockchainLog → String) (writeDecision : Except String String)
    (st : LoggerState) (device_id : String) (decision : ControlDecision)
    (prediction : Option SmokePrediction) : BlockchainLog × LoggerState :=
  let log_entry : BlockchainLog :=
    { event_type := "decision"
      device_id := device_id
      data := log_data_of decision prediction
      hash := none }
  let log_entry :=
    if st.enabled = true ∧ st.hasContract = true ∧ st.hasAccount = true then
      match writeDecision with
      | Except.ok tx_hash => { log_entry with hash := some tx_hash }
      | Except.error _ => { log_entry with hash := some (mockHash log_entry) }
    else
      { log_entry with hash := some (mockHash log_entry) }
  (log_entry, { st with ledger := st.ledger ++ [log_entry] })

/-- The will_peak heuristic of `SmokePredictionAgent.execute`
(src/agents/smoke_prediction_agent.py, lines 43-44):
`predicted_value > last_val * 1.05 and predicted_value > 250`. -/
def will_peak_of (predicted_value last_val : ℚ) : Bool :=
  predicted_value > last_val * (105/100) && predicted_value > 250

/-- The confidence ladder of `SmokePredictionAgent.execute` (lines 46-47):
0.95 when the prediction exceeds 400, else 0.85 on a predicted peak,
else 0.60. -/
def confidence_of (predicted_value last_val : ℚ) : ℚ :=
  if predicted_value > 400 then 95/100
  else if will_peak_of predicted_value last_val then 85/100
  else 60/100

lemma generateMockResponse_fanOn (cur : SensorReading) (p : SmokePrediction)
    (cls : AirTypeClassification) :
    (generateMockResponse cur p cls).fan_on =
      (decide (cur.pm25 > 35) || decide (cur.co > 50) || decide (cur.voc > 200)) := by
  unfold generateMockResponse
  dsimp only
  split <;> rfl

lemma generateMockResponse_fanOn_iff (cur : SensorReading) (p : SmokePrediction)
    (cls : AirTypeClassification) :
    (generateMockResponse cur p cls).fan_on = true ↔
      (cur.pm25 > 35 ∨ cur.co > 50 ∨ cur.voc > 200) := by
  rw [generateMockResponse_fanOn]
  simp [or_assoc]

lemma generateMockResponse_override (cur : SensorReading) (p : SmokePrediction)
    (cls : AirTypeClassification) :
    (generateMockResponse cur p cls).override_reason = none := by
  unfold generateMockResponse
  dsimp only
  split <;> rfl

lemma generateMockResponse_on_intensity (cur : SensorReading) (p : SmokePrediction)
    (cls : AirTypeClassification) (h : cur.pm25 > 35 ∨ cur.co > 50 ∨ cur.voc > 200) :
    (generateMockResponse cur p cls).fan_intensity =
      peakBoost p (comfortBase cls.air_type (severityRatioOf cur.pm25 cur.co cur.voc)) := by
  have hb : (decide (cur.pm25 > 35) || decide (cur.co > 50) || decide (cur.voc > 200)) = true := by
    rcases h with h | h | h <;> simp [h]
  unfold generateMockResponse
  dsimp only
  rw [if_pos hb]

lemma generateMockResponse_off_fields (cur : SensorReading) (p : SmokePrediction)
    (cls : AirTypeClassification) (h : ¬(cur.pm25 > 35 ∨ cur.co > 50 ∨ cur.voc > 200)) :
    (generateMockResponse cur p cls).fan_on = false ∧
      (generateMockResponse cur p cls).fan_intensity = 0 := by
  have hb : (decide (cur.pm25 > 35) || decide (cur.co > 50) || decide (cur.voc > 200)) = false := by
    push_neg at h
    simp [h.1, h.2.1, h.2.2]
  unfold generateMockResponse
  dsimp only
  rw [hb]
  exact ⟨rfl, rfl⟩

lemma comfortBase_mem (t : SmokeEventType) (s : ℚ) :
    comfortBase t s ∈ ([25, 50, 75, 100] : List ℤ) := by
  unfold comfortBase
  split_ifs <;> simp

lemma comfortBase_of_two_lt (t : SmokeEventType) (s : ℚ) (hs : (2 : ℚ) < s) :
    comfortBase t s = if t = SmokeEventType.cooking then 75 else 100 := by
  have h45 : ¬ s < 4/5 := by linarith
  have h35 : ¬ s < 3/5 := by linarith
  have hgt : s > 4/5 := by linarith
  cases t <;> simp [comfortBase, h45, h35, hgt]

lemma severityRatioOf_co_lt (pm25 co voc : ℚ) (h : co > 200) :
    (2 : ℚ) < severityRatioOf pm25 co voc := by
  have h1 : (2 : ℚ) < co / 100 := by linarith
  have h2 : co / 100 ≤ severityRatioOf pm25 co voc :=
    le_trans (le_max_right (pm25 / 150) (co / 100)) (le_max_left _ (voc / 500))
  linarith

lemma peakBoost_of_not (p : SmokePrediction) (fi : ℤ)
    (h : ¬(p.will_peak = true ∧ p.confidence > 3/5)) : peakBoost p fi = fi := by
  unfold peakBoost
  rw [if_neg h]

lemma peakBoost_100 (p : SmokePrediction) : peakBoost p 100 = 100 := by
  unfold peakBoost
  split_ifs <;> decide

lemma peakBoost_75_boosted (p : SmokePrediction)
    (h : p.will_peak = true ∧ p.confidence > 3/5) : peakBoost p 75 = 100 := by
  unfold peakBoost
  rw [if_pos h]
  norm_num

lemma peakBoost_mem (p : SmokePrediction) (fi : ℤ) (h : fi ∈ ([25, 50, 75, 100] : List ℤ)) :
    peakBoost p fi ∈ ([25, 50, 75, 100] : List ℤ) := by
  fin_cases h <;> unfold peakBoost <;> split_ifs <;> simp_all

lemma peakBoost_ge_50 (p : SmokePrediction) (fi : ℤ) (hfi : fi ∈ ([25, 50, 75, 100] : List ℤ))
    (hp : p.will_peak = true) (hc : p.confidence > 4/5) : 50 ≤ peakBoost p fi := by
  have hc6 : p.confidence > 3/5 := by linarith
  unfold peakBoost
  rw [if_pos ⟨hp, hc6⟩]
  fin_cases hfi <;> norm_num

lemma snapIntensity_mem (x : ℚ) : snapIntensity x ∈ allowed_levels := by
  unfold snapIntensity allowed_levels
  simp only [List.tail_cons, List.headI, List.foldl]
  split_ifs <;> simp

/-- C1 (counterexample): a reading with co = 250 (so co above 200), classified as
cooking smoke with no forecast peak, yields fan intensity 75, not 100, so the
claim that co above 200 forces intensity 100 for all forecast and
classification values is false on the code. -/
theorem C1_counterexample :
    ((⟨0, 0, 250, 0⟩ : SensorReading).co > 200) ∧
    (generateMockResponse ⟨0, 0, 250, 0⟩ ⟨false, 0, 0⟩
        ⟨SmokeEventType.cooking, 1/2⟩).fan_intensity ≠ 100 := by
  constructor
  · norm_num
  · have h75 : (generateMockResponse ⟨0, 0, 250, 0⟩ ⟨false, 0, 0⟩
        ⟨SmokeEventType.cooking, 1/2⟩).fan_intensity = 75 := by
      norm_num [generateMockResponse, severityRatioOf, comfortBase, peakBoost]
      decide
    rw [h75]
    decide

/-- C1 (amended): for every reading with co above 200 the mock decision turns
the fan on, and the fan intensity is 100 except when the classification is
cooking and no peak is forecast with confidence above 0.6, in which case the
intensity is 75. -/
theorem C1_co_critical_amended (cur : SensorReading) (p : SmokePrediction)
    (cls : AirTypeClassification) (h : cur.co > 200) :
    (generateMockResponse cur p cls).fan_on = true ∧
    (cls.air_type = SmokeEventType.cooking ∧ ¬(p.will_peak = true ∧ p.confidence > 3/5) →
      (generateMockResponse cur p cls).fan_intensity = 75) ∧
    (cls.air_type ≠ SmokeEventType.cooking ∨ (p.will_peak = true ∧ p.confidence > 3/5) →
      (generateMockResponse cur p cls).fan_intensity = 100) := by
  have hor : cur.pm25 > 35 ∨ cur.co > 50 ∨ cur.voc > 200 := Or.inr (Or.inl (by linarith))
  have hsev := severityRatioOf_co_lt cur.pm25 cur.co cur.voc h
  have hbase := comfortBase_of_two_lt cls.air_type _ hsev
  have hint := generateMockResponse_on_intensity cur p cls hor
  refine ⟨(generateMockResponse_fanOn_iff cur p cls).mpr hor, ?_, ?_⟩
  · rintro ⟨hck, hnb⟩
    rw [hint, hbase, if_pos hck, peakBoost_of_not p 75 hnb]
  · rintro (hck | hb)
    · rw [hint, hbase, if_neg hck, peakBoost_100]
    · by_cases hck : cls.air_type = SmokeEventType.cooking
      · rw [hint, hbase, if_pos hck, peakBoost_75_boosted p hb]
      · rw [hint, hbase, if_neg hck, peakBoost_100]

/-- C1 (witness): the amended statement applied at the co = 250 cooking reading
with no forecast peak. -/
theorem C1_co_critical_amended_witness :
    (generateMockResponse ⟨0, 0, 250, 0⟩ ⟨false, 0, 0⟩
        ⟨SmokeEventType.cooking, 1/2⟩).fan_on = true ∧
    (generateMockResponse ⟨0, 0, 250, 0⟩ ⟨false, 0, 0⟩
        ⟨SmokeEventType.cooking, 1/2⟩).fan_intensity = 75 := by
  have h := C1_co_critical_amended ⟨0, 0, 250, 0⟩ ⟨false, 0, 0⟩
    ⟨SmokeEventType.cooking, 1/2⟩ (by norm_num)
  exact ⟨h.1, h.2.1 ⟨rfl, by simp⟩⟩

/-- C2: the fan intensity returned by the control decision logic is always one
of 0, 25, 50, 75, 100, both on the LLM-response parsing path (snapping to the
nearest allowed level) and on the mock decision path. -/
theorem C2_intensity_snapped :
    (∀ data : DecisionResponseData,
      (parseControlResponse data).fan_intensity ∈ allowed_levels) ∧
    (∀ (cur : SensorReading) (p : SmokePrediction) (cls : AirTypeClassification),
      (generateMockResponse cur p cls).fan_intensity ∈ allowed_levels) := by
  constructor
  · intro data
    simpa [parseControlResponse] using snapIntensity_mem (data.fan_intensity.getD 0)
  · intro cur p cls
    by_cases hor : cur.pm25 > 35 ∨ cur.co > 50 ∨ cur.voc > 200
    · rw [generateMockResponse_on_intensity cur p cls hor]
      have h1 := comfortBase_mem cls.air_type (severityRatioOf cur.pm25 cur.co cur.voc)
      have h2 := peakBoost_mem p _ h1
      simp only [List.mem_cons, List.not_mem_nil, or_false] at h2
      rcases h2 with h | h | h | h <;> simp [allowed_levels, h]
    · rw [(generateMockResponse_off_fields cur p cls hor).2]
      simp [allowed_levels]

/-- C3 (counterexample): with an otherwise-clean reading (all channels 0) and a
forecast with will peak true and confidence 0.85, the mock decision has
intensity 0, so the claim that such a forecast forces intensity at least 100
is false on the code. -/
theorem C3_counterexample :
    ((⟨true, 17/20, 0⟩ : SmokePrediction).will_peak = true ∧
      (⟨true, 17/20, 0⟩ : SmokePrediction).confidence > 4/5) ∧
    ¬(100 ≤ (generateMockResponse ⟨0, 0, 0, 0⟩ ⟨true, 17/20, 0⟩
        ⟨SmokeEventType.clean, 9/10⟩).fan_intensity) := by
  refine ⟨⟨rfl, by norm_num⟩, ?_⟩
  have h0 : (generateMockResponse ⟨0, 0, 0, 0⟩ ⟨true, 17/20, 0⟩
      ⟨SmokeEventType.clean, 9/10⟩).fan_intensity = 0 :=
    (generateMockResponse_off_fields _ _ _ (by norm_num)).2
  rw [h0]
  decide

/-- C3 (amended): when a peak is forecast with confidence above 0.8, the boost
rule only acts if the fan is already on: if some comfort threshold is exceeded
the intensity is at least 50, and with an otherwise-clean reading the
intensity stays 0. -/
theorem C3_preemptive_amended (cur : SensorReading) (p : SmokePrediction)
    (cls : AirTypeClassification) (hp : p.will_peak = true) (hc : p.confidence > 4/5) :
    ((cur.pm25 > 35 ∨ cur.co > 50 ∨ cur.voc > 200) →
      50 ≤ (generateMockResponse cur p cls).fan_intensity) ∧
    (¬(cur.pm25 > 35 ∨ cur.co > 50 ∨ cur.voc > 200) →
      (generateMockResponse cur p cls).fan_intensity = 0) := by
  constructor
  · intro hor
    rw [generateMockResponse_on_intensity cur p cls hor]
    exact peakBoost_ge_50 p _ (comfortBase_mem _ _) hp hc
  · intro hor
    exact (generateMockResponse_off_fields cur p cls hor).2

/-- C3 (witness): the amended statement applied at a reading with pm25 = 40 and
a confident forecast peak. -/
theorem C3_preemptive_amended_witness :
    50 ≤ (generateMockResponse ⟨40, 0, 0, 0⟩ ⟨true, 9/10, 0⟩
        ⟨SmokeEventType.unknown, 0⟩).fan_intensity := by
  have h := C3_preemptive_amended ⟨40, 0, 0, 0⟩ ⟨true, 9/10, 0⟩
    ⟨SmokeEventType.unknown, 0⟩ rfl (by norm_num)
  exact h.1 (Or.inl (by norm_num))

/-- C4 (counterexample): at the scenario-A reading (pm25 15, co2 450, co 250,
voc 50) the mock decision does turn the fan on at intensity 100, but its
override reason is none, never the string claimed. -/
theorem C4_counterexample :
    (generateMockResponse ⟨15, 450, 250, 50⟩ ⟨false, 0, 0⟩
        ⟨SmokeEventType.clean, 9/10⟩).fan_on = true ∧
    (generateMockResponse ⟨15, 450, 250, 50⟩ ⟨false, 0, 0⟩
        ⟨SmokeEventType.clean, 9/10⟩).fan_intensity = 100 ∧
    (generateMockResponse ⟨15, 450, 250, 50⟩ ⟨false, 0, 0⟩
        ⟨SmokeEventType.clean, 9/10⟩).override_reason ≠ some "Safety Protocol Activated" := by
  refine ⟨?_, ?_, ?_⟩
  · exact (generateMockResponse_fanOn_iff _ _ _).mpr (Or.inr (Or.inl (by norm_num)))
  · norm_num [generateMockResponse, severityRatioOf, comfortBase, peakBoost]
    decide
  · rw [generateMockResponse_override]
    simp

/-- C4 (amended): the mock decision path never sets an override reason (the
field is always none); at the scenario-A reading with a non-cooking
classification the decision still has fan on and intensity 100, with override
reason none rather than the claimed string. -/
theorem C4_override_amended (cur : SensorReading) (p : SmokePrediction)
    (cls : AirTypeClassification) :
    (generateMockResponse cur p cls).override_reason = none ∧
    (cur = ⟨15, 450, 250, 50⟩ → cls.air_type ≠ SmokeEventType.cooking →
      (generateMockResponse cur p cls).fan_on = true ∧
      (generateMockResponse cur p cls).fan_intensity = 100) := by
  refine ⟨generateMockResponse_override cur p cls, ?_⟩
  rintro rfl hck
  have hor : (⟨15, 450, 250, 50⟩ : SensorReading).pm25 > 35 ∨
      (⟨15, 450, 250, 50⟩ : SensorReading).co > 50 ∨
      (⟨15, 450, 250, 50⟩ : SensorReading).voc > 200 := Or.inr (Or.inl (by norm_num))
  refine ⟨(generateMockResponse_fanOn_iff _ _ _).mpr hor, ?_⟩
  rw [generateMockResponse_on_intensity _ _ _ hor,
    comfortBase_of_two_lt _ _ (severityRatioOf_co_lt _ _ _ (by norm_num)),
    if_neg hck, peakBoost_100]

/-- C4 (witness): the amended statement applied at the scenario-A reading with
an unknown classification and no forecast peak. -/
theorem C4_override_amended_witness :
    (generateMockResponse ⟨15, 450, 250, 50⟩ ⟨false, 0, 0⟩
        ⟨SmokeEventType.unknown, 1/2⟩).override_reason = none ∧
    (generateMockResponse ⟨15, 450, 250, 50⟩ ⟨false, 0, 0⟩
        ⟨SmokeEventType.unknown, 1/2⟩).fan_on = true ∧
    (generateMockResponse ⟨15, 450, 250, 50⟩ ⟨false, 0, 0⟩
        ⟨SmokeEventType.unknown, 1/2⟩).fan_intensity = 100 := by
  have h := C4_override_amended ⟨15, 450, 250, 50⟩ ⟨false, 0, 0⟩ ⟨SmokeEventType.unknown, 1/2⟩
  exact ⟨h.1, (h.2 rfl (by decide)).1, (h.2 rfl (by decide)).2⟩

/-- C5: the mock decision turns the fan on exactly when pm25 exceeds 35 or co
exceeds 50 or voc exceeds 200, and when none of these thresholds is exceeded
and no peak is forecast the decision is fan off, intensity 0, override reason
none. -/
theorem C5_comfort_tier (cur : SensorReading) (p : SmokePrediction)
    (cls : AirTypeClassification) :
    ((generateMockResponse cur p cls).fan_on = true ↔
      (cur.pm25 > 35 ∨ cur.co > 50 ∨ cur.voc > 200)) ∧
    (¬(cur.pm25 > 35 ∨ cur.co > 50 ∨ cur.voc > 200) → p.will_peak = false →
      (generateMockResponse cur p cls).fan_on = false ∧
      (generateMockResponse cur p cls).fan_intensity = 0 ∧
      (generateMockResponse cur p cls).override_reason = none) := by
  refine ⟨generateMockResponse_fanOn_iff cur p cls, ?_⟩
  intro hor _
  exact ⟨(generateMockResponse_off_fields cur p cls hor).1,
    (generateMockResponse_off_fields cur p cls hor).2,
    generateMockResponse_override cur p cls⟩

/-- C5 (witness): the statement applied at the scenario-B reading (pm25 10,
co2 400, co 5, voc 30) with no forecast peak and a clean classification. -/
theorem C5_comfort_tier_witness :
    (generateMockResponse ⟨10, 400, 5, 30⟩ ⟨false, 1/2, 0⟩
        ⟨SmokeEventType.clean, 9/10⟩).fan_on = false ∧
    (generateMockResponse ⟨10, 400, 5, 30⟩ ⟨false, 1/2, 0⟩
        ⟨SmokeEventType.clean, 9/10⟩).fan_intensity = 0 := by
  have h := (C5_comfort_tier ⟨10, 400, 5, 30⟩ ⟨false, 1/2, 0⟩
    ⟨SmokeEventType.clean, 9/10⟩).2 (by norm_num) rfl
  exact ⟨h.1, h.2.1⟩

lemma sum_range_cast (n : ℕ) : (∑ i ∈ Finset.range n, (i : ℚ)) = n * (n - 1) / 2 := by
  induction n with
  | zero => simp
  | succ k ih =>
    rw [Finset.sum_range_succ, ih]
    push_cast
    ring

lemma sum_range_sq_cast (n : ℕ) :
    (∑ i ∈ Finset.range n, (i : ℚ) ^ 2) = n * (n - 1) * (2 * n - 1) / 6 := by
  induction n with
  | zero => simp
  | succ k ih =>
    rw [Finset.sum_range_succ, ih]
    push_cast
    ring

lemma denom_val (n : ℕ) :
    (n : ℚ) * (∑ i ∈ Finset.range n, (i : ℚ) ^ 2) - (∑ i ∈ Finset.range n, (i : ℚ)) ^ 2 =
      (n : ℚ) ^ 2 * ((n : ℚ) ^ 2 - 1) / 12 := by
  rw [sum_range_cast, sum_range_sq_cast]
  ring

lemma denom_ne_zero (n : ℕ) (hn : 2 ≤ n) :
    (n : ℚ) * (∑ i ∈ Finset.range n, (i : ℚ) ^ 2) - (∑ i ∈ Finset.range n, (i : ℚ)) ^ 2 ≠ 0 := by
  rw [denom_val]
  have h2 : (2 : ℚ) ≤ (n : ℚ) := by exact_mod_cast hn
  have h4 : (4 : ℚ) ≤ (n : ℚ) ^ 2 := by nlinarith
  have hpos : (0 : ℚ) < (n : ℚ) ^ 2 * ((n : ℚ) ^ 2 - 1) := by nlinarith
  positivity

/-- Any slope and intercept satisfying the normal equations of the
least-squares line minimize the sum of squared residuals. -/
lemma ols_optimal (n : ℕ) (hn : 2 ≤ n) (y : ℕ → ℚ) (s c a b : ℚ)
    (hs : s * ((n : ℚ) * (∑ i ∈ Finset.range n, (i : ℚ) ^ 2)
          - (∑ i ∈ Finset.range n, (i : ℚ)) ^ 2)
        = (n : ℚ) * (∑ i ∈ Finset.range n, (i : ℚ) * y i)
          - (∑ i ∈ Finset.range n, (i : ℚ)) * ∑ i ∈ Finset.range n, y i)
    (hc : c * (n : ℚ) = (∑ i ∈ Finset.range n, y i)
          - s * ∑ i ∈ Finset.range n, (i : ℚ)) :
    ∑ i ∈ Finset.range n, (y i - (s * i + c)) ^ 2 ≤
      ∑ i ∈ Finset.range n, (y i - (a * i + b)) ^ 2 := by
  have hn0 : (n : ℚ) ≠ 0 := Nat.cast_ne_zero.mpr (by omega)
  have hr : ∑ i ∈ Finset.range n, (y i - (s * i + c)) = 0 := by
    have expand : ∑ i ∈ Finset.range n, (y i - (s * i + c)) =
        (∑ i ∈ Finset.range n, y i) - s * (∑ i ∈ Finset.range n, (i : ℚ)) - n * c := by
      rw [Finset.sum_sub_distrib, Finset.sum_add_distrib, ← Finset.mul_sum,
        Finset.sum_const, Finset.card_range, nsmul_eq_mul]
      ring
    rw [expand]
    linear_combination -hc
  have hri : ∑ i ∈ Finset.range n, (i : ℚ) * (y i - (s * i + c)) = 0 := by
    have expand : ∑ i ∈ Finset.range n, (i : ℚ) * (y i - (s * i + c)) =
        (∑ i ∈ Finset.range n, (i : ℚ) * y i)
          - s * (∑ i ∈ Finset.range n, (i : ℚ) ^ 2)
          - c * ∑ i ∈ Finset.range n, (i : ℚ) := by
      have hpt : ∀ i ∈ Finset.range n, (i : ℚ) * (y i - (s * i + c)) =
          (i : ℚ) * y i - (s * (i : ℚ) ^ 2 + c * (i : ℚ)) := fun i _ => by ring
      rw [Finset.sum_congr rfl hpt, Finset.sum_sub_distrib, Finset.sum_add_distrib,
        ← Finset.mul_sum, ← Finset.mul_sum]
      ring
    rw [expand]
    have key : (n : ℚ) * ((∑ i ∈ Finset.range n, (i : ℚ) * y i)
        - s * (∑ i ∈ Finset.range n, (i : ℚ) ^ 2)
        - c * ∑ i ∈ Finset.range n, (i : ℚ)) = 0 := by
      linear_combination -hs - (∑ i ∈ Finset.range n, (i : ℚ)) * hc
    exact (mul_eq_zero.mp key).resolve_left hn0
  have decomp : ∑ i ∈ Finset.range n, (y i - (a * i + b)) ^ 2 =
      (∑ i ∈ Finset.range n, (y i - (s * i + c)) ^ 2) +
        ∑ i ∈ Finset.range n, ((s - a) * i + (c - b)) ^ 2 := by
    have hpt : ∀ i ∈ Finset.range n, (y i - (a * i + b)) ^ 2 =
        ((y i - (s * i + c)) ^ 2 +
          ((2 * (s - a)) * ((i : ℚ) * (y i - (s * i + c)))
            + (2 * (c - b)) * (y i - (s * i + c)))) +
          ((s - a) * i + (c - b)) ^ 2 := fun i _ => by ring
    rw [Finset.sum_congr rfl hpt, Finset.sum_add_distrib, Finset.sum_add_distrib,
      Finset.sum_add_distrib, ← Finset.mul_sum, ← Finset.mul_sum, hr, hri]
    ring
  rw [decomp]
  exact le_add_of_nonneg_right (Finset.sum_nonneg fun i _ => sq_nonneg _)

lemma lsSlope_lsIntercept_optimal (xs : List ℚ) (h : 2 ≤ xs.length) (a b : ℚ) :
    SSE xs (lsSlope xs) (lsIntercept xs) ≤ SSE xs a b := by
  have hlen : ¬ xs.length ≤ 1 := by omega
  have hD := denom_ne_zero xs.length h
  have hn0 : (xs.length : ℚ) ≠ 0 := Nat.cast_ne_zero.mpr (by omega)
  refine ols_optimal xs.length h (fun i => xs.getD i 0) (lsSlope xs) (lsIntercept xs) a b ?_ ?_
  · rw [lsSlope, if_neg hlen]
    exact div_mul_cancel₀ _ hD
  · rw [lsIntercept, if_neg hlen]
    exact div_mul_cancel₀ _ hn0

lemma extract_agree (rs : List ChannelReading) :
    SmokeModelService.extract_features (rs.map ChannelReading.toPairs) =
      SmokeModel.extract_features (toFrame rs) := by
  have h : ∀ (col : String) (f : ChannelReading → ℚ),
      (∀ r, dictGet (ChannelReading.toPairs r) col 0 = f r) →
      (rs.map ChannelReading.toPairs).map (fun r => dictGet r col 0) = rs.map f := by
    intro col f hf
    rw [List.map_map]
    exact congrArg (fun g => rs.map g) (funext hf)
  simp only [SmokeModelService.extract_features, SmokeModel.extract_features,
    trackedChannels, toFrame, List.flatMap_cons, List.flatMap_nil, List.append_nil]
  rw [h "mq2_raw" ChannelReading.mq2_raw fun r => rfl,
    h "pm25" ChannelReading.pm25 fun r => rfl,
    h "co" ChannelReading.co fun r => rfl,
    h "voc" ChannelReading.voc fun r => rfl,
    h "temperature" ChannelReading.temperature fun r => rfl,
    h "humidity" ChannelReading.humidity fun r => rfl]

/-- C6 (code bug): with a single dict reading carrying mq2_raw = 220 (fewer
than window_size = 10 readings), predict returns 0 instead of the last
reading primary channel value 220 - the degraded path reads the key mq2,
which no window dict in the repository carries - and the model is never
invoked (the result is the same for every model).  For an object reading the
naive carry-forward does return the primary channel (co) value. -/
theorem C6_degraded_mq2_bug :
    ∀ model : List ℚ → ℚ,
      SmokeModelService.predict model
          [PyReading.dict [("mq2_raw", 220), ("pm25", 15), ("co", 10), ("voc", 50),
            ("temperature", 25), ("humidity", 60)]] = 0 ∧
      primaryChannelValue (PyReading.dict [("mq2_raw", 220), ("pm25", 15), ("co", 10),
        ("voc", 50), ("temperature", 25), ("humidity", 60)]) = 220 ∧
      SmokeModelService.predict model [PyReading.obj 15 450 10 50 none none] = 10 ∧
      primaryChannelValue (PyReading.obj 15 450 10 50 none none) = 10 := by
  intro model
  exact ⟨rfl, rfl, rfl, rfl⟩

/-- C7: for every window, the inference-time extractor produces, per tracked
channel in the fixed order mq2_raw, pm25, co, voc, temperature, humidity,
exactly the five scalars mean, max, last value, trend slope and 3-step
delta; the delta is 0 on windows shorter than 3; the slope of a single-point
window is 0; the slope (with its intercept) minimizes the sum of squared
residuals over index positions 0..len-1, so it is the least-squares
linear-trend slope; and the inference-time extractor computes the same
features as the training-time extractor on any fully-populated window. -/
theorem C7_feature_extraction :
    (∀ w : List (List (String × ℚ)),
      SmokeModelService.extract_features w = trackedChannels.flatMap fun col =>
        [listMean (w.map fun r => dictGet r col 0),
          listMax (w.map fun r => dictGet r col 0),
          listLast (w.map fun r => dictGet r col 0),
          lsSlope (w.map fun r => dictGet r col 0),
          delta3 (w.map fun r => dictGet r col 0)]) ∧
    (∀ xs : List ℚ, xs.length < 3 → delta3 xs = 0) ∧
    (∀ x : ℚ, lsSlope [x] = 0) ∧
    (∀ (xs : List ℚ) (a b : ℚ), 2 ≤ xs.length →
      SSE xs (lsSlope xs) (lsIntercept xs) ≤ SSE xs a b) ∧
    (∀ rs : List ChannelReading,
      SmokeModelService.extract_features (rs.map ChannelReading.toPairs) =
        SmokeModel.extract_features (toFrame rs)) := by
  refine ⟨fun w => rfl, ?_, fun x => rfl, ?_, extract_agree⟩
  · intro xs h
    rw [delta3, if_neg (by omega)]
  · intro xs a b h
    exact lsSlope_lsIntercept_optimal xs h a b

/-- C7 (witness): the statement applied at the two-point window 1, 2 (delta
and optimality against slope 3, intercept 4) and the one-point window 5. -/
theorem C7_feature_extraction_witness :
    delta3 [(1 : ℚ), 2] = 0 ∧ lsSlope [(5 : ℚ)] = 0 ∧
      SSE [(1 : ℚ), 2] (lsSlope [(1 : ℚ), 2]) (lsIntercept [(1 : ℚ), 2]) ≤
        SSE [(1 : ℚ), 2] 3 4 :=
  ⟨C7_feature_extraction.2.1 [(1 : ℚ), 2] (by decide),
    C7_feature_extraction.2.2.1 5,
    C7_feature_extraction.2.2.2.1 [(1 : ℚ), 2] 3 4 (by decide)⟩

/-- C8: the classification parser never fails on an unrecognized air_type
label: whenever the label string coerces to no enum value, the (total)
parsing function still returns a classification, and its label is unknown. -/
theorem C8_unknown_label_maps_to_unknown (data : ClassificationResponseData) (s : String)
    (hs : data.air_type = some s) (h : smokeEventTypeOfValue s = none) :
    (parseClassificationResponse data).air_type = SmokeEventType.unknown := by
  simp [parseClassificationResponse, hs, h]

/-- C8 (witness): the statement applied to a response whose air_type field is
the unrecognized label fog. -/
theorem C8_unknown_label_maps_to_unknown_witness :
    (parseClassificationResponse ⟨some "fog", some (7/10), none⟩).air_type
      = SmokeEventType.unknown :=
  C8_unknown_label_maps_to_unknown ⟨some "fog", some (7/10), none⟩ "fog" rfl rfl

/-- C9: every call to log_decision appends exactly one entry to the in-memory
ledger, that entry has a non-null hash, and whenever the blockchain write
fails or the blockchain path is not fully configured the hash is the locally
computed content hash of the entry - the function is total, so the failure
never propagates to the caller. -/
theorem C9_log_decision_never_loses (mockHash : BlockchainLog → String)
    (w : Except String String) (st : LoggerState) (d : String)
    (dec : ControlDecision) (p : Option SmokePrediction) :
    (log_decision mockHash w st d dec p).2.ledger
        = st.ledger ++ [(log_decision mockHash w st d dec p).1] ∧
    (log_decision mockHash w st d dec p).1.hash ≠ none ∧
    ((¬(st.enabled = true ∧ st.hasContract = true ∧ st.hasAccount = true)) ∨
        (∃ e, w = Except.error e) →
      (log_decision mockHash w st d dec p).1.hash =
        some (mockHash
          { event_type := "decision", device_id := d,
            data := log_data_of dec p, hash := none })) := by
  by_cases hcfg : st.enabled = true ∧ st.hasContract = true ∧ st.hasAccount = true
  · cases w with
    | ok tx => simp [log_decision, hcfg]
    | error e => simp [log_decision, hcfg]
  · simp [log_decision, hcfg]

/-- C9 (witness): the statement applied with the blockchain enabled and
configured but the write raising, starting from an empty ledger. -/
theorem C9_log_decision_never_loses_witness :
    (log_decision (fun _ => "0xlocal") (Except.error "rpc down")
        ⟨true, true, true, []⟩ "esp32-1"
        ⟨true, 100, "CO high", none⟩ none).2.ledger
      = [(log_decision (fun _ => "0xlocal") (Except.error "rpc down")
          ⟨true, true, true, []⟩ "esp32-1"
          ⟨true, 100, "CO high", none⟩ none).1] ∧
    (log_decision (fun _ => "0xlocal") (Except.error "rpc down")
        ⟨true, true, true, []⟩ "esp32-1"
        ⟨true, 100, "CO high", none⟩ none).1.hash = some "0xlocal" := by
  have h := C9_log_decision_never_loses (fun _ => "0xlocal") (Except.error "rpc down")
    ⟨true, true, true, []⟩ "esp32-1" ⟨true, 100, "CO high", none⟩ none
  exact ⟨h.1, h.2.2 (Or.inr ⟨"rpc down", rfl⟩)⟩

/-- C10: whenever the smoke prediction agent flags a peak, the confidence it
reports is at least 0.85, hence strictly above the 0.8 threshold of the
pre-emptive rule, for every predicted and last value. -/
theorem C10_peak_confidence (predicted_value last_val : ℚ)
    (h : will_peak_of predicted_value last_val = true) :
    85/100 ≤ confidence_of predicted_value last_val ∧
      4/5 < confidence_of predicted_value last_val := by
  simp only [confidence_of, h]
  split_ifs with h1 <;> norm_num

/-- C10 (witness): the statement applied at predicted value 300 with last
value 200 (a flagged peak below the 400 ladder step, confidence 0.85). -/
theorem C10_peak_confidence_witness :
    (85/100 : ℚ) ≤ confidence_of 300 200 ∧ (4/5 : ℚ) < confidence_of 300 200 :=
  C10_peak_confidence 300 200 (by norm_num [will_peak_of])

